import Mathlib

/-!
# Verification of the multi-objective adaptive learning core

Shallow embedding of the core engine of the adaptive learning repository:
the data model (`Topic`, `Content`, `StudentState`, `Observation`), the
Bayesian knowledge-tracing mastery estimator, the six scoring components,
and the orchestrator (`select_optimal_content`, `update_student_state`,
`set_weights`).  Exact (float-free) arithmetic is embedded over `ℚ`; the
scoring functions that use `exp`, `log` and `sqrt` are embedded over `ℝ`.
Raising a Python exception is embedded as returning `none`.
-/

namespace AdaptiveAlgorithm

/-- Learning style enumeration (`LearningStyle` in `models/schemas.py`). -/
inductive LearningStyle where
  | visual
  | auditory
  | kinesthetic
  | reading_writing
deriving DecidableEq, Repr

/-- Content type enumeration (`ContentType` in `models/schemas.py`). -/
inductive ContentType where
  | video
  | text
  | interactive
  | quiz
  | case_study
deriving DecidableEq, Repr

/-- A learning topic (`Topic` dataclass); only the fields the core engine
reads are embedded. -/
structure Topic where
  id : String
  prerequisites : List String
  importance_weight : ℚ
  difficulty : ℚ
deriving DecidableEq, Repr

/-- A piece of learning content (`Content` dataclass); only the fields the
core engine reads are embedded. -/
structure Content where
  id : String
  topic_id : String
  content_type : ContentType
  difficulty : ℚ
  intrinsic_load : ℚ
  interaction_count : ℕ
deriving DecidableEq, Repr

/-- Student state (`StudentState` dataclass).  Python dictionaries are
embedded as association lists (first binding wins on lookup). -/
structure StudentState where
  student_id : String
  knowledge_state : List (String × ℚ)
  learning_style_preferences : List (LearningStyle × ℚ)
  current_cognitive_load : ℚ
  recent_performance : List ℚ
  mastered_topics : List String
  total_interactions : ℕ
  engagement_history : List ℚ
deriving DecidableEq, Repr

/-- An interaction observation (`Observation` dataclass). -/
structure Observation where
  content_id : String
  topic_id : String
  correct : Bool
  time_spent : ℕ
  engagement_score : ℚ
deriving DecidableEq, Repr

/-- `np.clip(x, lo, hi)`: clamp `x` into `[lo, hi]`. -/
def clip (x lo hi : ℚ) : ℚ :=
  min (max x lo) hi

/-- Association-list lookup: `d.get(k)` / `d[k]` on a Python dict. -/
def lookup? {α : Type} (k : String) : List (String × α) → Option α
  | [] => none
  | p :: rest => if p.1 = k then some p.2 else lookup? k rest

/-- Bayesian-knowledge-tracing parameters (`BayesianKnowledgeTracing`
constructor arguments in `core/knowledge_tracing.py`). -/
structure BayesianKnowledgeTracing where
  p_init : ℚ
  p_learn : ℚ
  p_slip : ℚ
  p_guess : ℚ
deriving DecidableEq, Repr

/-- The default BKT parameters (`p_init=0.0, p_learn=0.3, p_slip=0.1,
p_guess=0.2`). -/
def default_bkt : BayesianKnowledgeTracing :=
  { p_init := 0, p_learn := 3/10, p_slip := 1/10, p_guess := 2/10 }

/-- `BayesianKnowledgeTracing.update_mastery` from
`core/knowledge_tracing.py` (lines 29-56): Bayesian posterior from the
observation (pass-through unless the denominator is positive), followed by
the fixed-rate learning transition, clipped to `[0, 1]`. -/
def update_mastery (bkt : BayesianKnowledgeTracing) (current_mastery : ℚ)
    (correct : Bool) : ℚ :=
  let p_mastery_given_obs :=
    if correct then
      let numerator := (1 - bkt.p_slip) * current_mastery
      let denominator := numerator + bkt.p_guess * (1 - current_mastery)
      if denominator > 0 then numerator / denominator else current_mastery
    else
      let numerator := bkt.p_slip * current_mastery
      let denominator := numerator + (1 - bkt.p_guess) * (1 - current_mastery)
      if denominator > 0 then numerator / denominator else current_mastery
  clip (p_mastery_given_obs + (1 - p_mastery_given_obs) * bkt.p_learn) 0 1

/-- The posterior exactly as the specification words it (claim C3): the
Bayes formula, with pass-through precisely when the denominator is zero.
Stated from the spec for comparison against `update_mastery`. -/
def spec_posterior (bkt : BayesianKnowledgeTracing) (current_mastery : ℚ)
    (correct : Bool) : ℚ :=
  if correct then
    let denominator := (1 - bkt.p_slip) * current_mastery
      + bkt.p_guess * (1 - current_mastery)
    if denominator = 0 then current_mastery
    else ((1 - bkt.p_slip) * current_mastery) / denominator
  else
    let denominator := bkt.p_slip * current_mastery
      + (1 - bkt.p_guess) * (1 - current_mastery)
    if denominator = 0 then current_mastery
    else (bkt.p_slip * current_mastery) / denominator

/-- `BayesianKnowledgeTracing.estimate_knowledge_level`: weighted mean of
the masteries over the weight mapping's keys, `0` on an empty mastery map
or non-positive total weight. -/
def estimate_knowledge_level (topic_masteries topic_weights : List (String × ℚ)) : ℚ :=
  if topic_masteries.isEmpty then 0
  else
    let weighted_sum :=
      (topic_weights.map (fun tw => ((lookup? tw.1 topic_masteries).getD 0) * tw.2)).sum
    let total_weight := (topic_weights.map (fun tw => tw.2)).sum
    if total_weight > 0 then weighted_sum / total_weight else 0

/-- The fixed content-type × learning-style affinity table
(`ScoringComponents.style_affinity` in `core/scoring.py`). -/
def style_affinity (ct : ContentType) (ls : LearningStyle) : ℚ :=
  match ct, ls with
  | ContentType.video, LearningStyle.visual => 1
  | ContentType.video, LearningStyle.auditory => 8/10
  | ContentType.video, LearningStyle.kinesthetic => 3/10
  | ContentType.video, LearningStyle.reading_writing => 4/10
  | ContentType.text, LearningStyle.visual => 5/10
  | ContentType.text, LearningStyle.auditory => 3/10
  | ContentType.text, LearningStyle.kinesthetic => 2/10
  | ContentType.text, LearningStyle.reading_writing => 1
  | ContentType.interactive, LearningStyle.visual => 7/10
  | ContentType.interactive, LearningStyle.auditory => 5/10
  | ContentType.interactive, LearningStyle.kinesthetic => 1
  | ContentType.interactive, LearningStyle.reading_writing => 6/10
  | ContentType.quiz, LearningStyle.visual => 6/10
  | ContentType.quiz, LearningStyle.auditory => 4/10
  | ContentType.quiz, LearningStyle.kinesthetic => 7/10
  | ContentType.quiz, LearningStyle.reading_writing => 9/10
  | ContentType.case_study, LearningStyle.visual => 8/10
  | ContentType.case_study, LearningStyle.auditory => 6/10
  | ContentType.case_study, LearningStyle.kinesthetic => 9/10
  | ContentType.case_study, LearningStyle.reading_writing => 8/10

/-- `ScoringComponents.learning_style_match`: preference-weighted affinity,
normalized by the preference mass; 0.5 on an empty preference map or
non-positive total mass. -/
def learning_style_match (content : Content) (student : StudentState) : ℚ :=
  if student.learning_style_preferences.isEmpty then 1/2
  else
    let score :=
      (student.learning_style_preferences.map
        (fun sp => style_affinity content.content_type sp.1 * sp.2)).sum
    let total_prob := (student.learning_style_preferences.map (fun sp => sp.2)).sum
    if total_prob > 0 then score / total_prob else 1/2

/-- `ScoringComponents.difficulty_appropriateness`: Gaussian bump centered
at `knowledge_level + delta` with width `sigma_zpd` (the exponent is exact
rational arithmetic; only `exp` is real). -/
noncomputable def difficulty_appropriateness (content : Content) (student : StudentState)
    (knowledge_level : ℚ) (delta : ℚ) (sigma_zpd : ℚ) : ℝ :=
  let mu_zpd := knowledge_level + delta
  let exponent : ℚ := -((content.difficulty - mu_zpd) ^ 2) / (2 * sigma_zpd ^ 2)
  Real.exp (exponent : ℝ)

/-- `ScoringComponents._estimate_projected_load`: difficulty-weighted
intrinsic load plus a fatigue term capped at 0.3, clipped to `[0, 1]`. -/
def estimate_projected_load (content : Content) (student : StudentState) : ℚ :=
  let base_load := content.intrinsic_load * content.difficulty
  let fatigue_factor := min (student.current_cognitive_load * (3/10)) (3/10)
  clip (base_load + fatigue_factor) 0 1

/-- `ScoringComponents.cognitive_load_optimization`. -/
def cognitive_load_optimization (content : Content) (student : StudentState)
    (l_optimal : ℚ) : ℚ :=
  let l_projected := estimate_projected_load content student
  clip (1 - |l_projected - l_optimal| / l_optimal) 0 1

/-- `ScoringComponents.knowledge_gap_targeting`. -/
def knowledge_gap_targeting (content : Content) (student : StudentState)
    (is_new_topic : Bool) : ℚ :=
  if is_new_topic then 1/2
  else 1 - (lookup? content.topic_id student.knowledge_state).getD 0

/-- The last `n` entries of a list (`l[-n:]` in Python). -/
def last_n {α : Type} (n : ℕ) (l : List α) : List α :=
  l.drop (l.length - n)

/-- `ScoringComponents._sigmoid` with the `[-500, 500]` input clamp. -/
noncomputable def sigmoid (x : ℚ) : ℝ :=
  1 / (1 + Real.exp (-((clip x (-500) 500 : ℚ) : ℝ)))

/-- `ScoringComponents.engagement_prediction` with the features derived by
`_extract_engagement_features` and combined by the fixed linear weights. -/
noncomputable def engagement_prediction (content : Content) (student : StudentState) : ℝ :=
  let recent_perf : ℚ :=
    if student.recent_performance.isEmpty then 1/2
    else (last_n 5 student.recent_performance).sum
      / ((last_n 5 student.recent_performance).length : ℚ)
  let style_match := learning_style_match content student
  let difficulty_match := 1 - |content.difficulty - 1/2|
  let score := style_match * (3/10) + difficulty_match * (25/100)
    + recent_perf * (2/10) + (1/2) * (15/100) + (7/10) * (1/10)
  sigmoid score

/-- `ScoringComponents.exploration_bonus` (`core/scoring.py` lines
214-242): UCB-style bonus with a decayed `beta_t` and a dedicated branch
for never-served content. -/
noncomputable def exploration_bonus (content : Content) (total_interactions : ℕ)
    (beta_0 : ℝ) (time_step : ℕ) : ℝ :=
  let beta_t := beta_0 / (1 + Real.log ((time_step : ℝ) + 1))
  if content.interaction_count = 0 then
    beta_t * Real.sqrt (Real.log ((total_interactions : ℝ) + 1))
  else
    beta_t * Real.sqrt
      (Real.log ((total_interactions : ℝ) + 1) / ((content.interaction_count : ℝ) + 1))

/-- The general UCB formula of the non-zero branch, applied uniformly at
every interaction count (claim C10's reference function). -/
noncomputable def exploration_bonus_general (content : Content) (total_interactions : ℕ)
    (beta_0 : ℝ) (time_step : ℕ) : ℝ :=
  (beta_0 / (1 + Real.log ((time_step : ℝ) + 1)))
    * Real.sqrt (Real.log ((total_interactions : ℝ) + 1)
        / ((content.interaction_count : ℝ) + 1))

/-- Sum of a weight mapping's values (`sum(weights.values())`). -/
def sum_values (ws : List (String × ℚ)) : ℚ :=
  (ws.map (fun p => p.2)).sum

/-- The default component weights from `ALGORITHM_CONFIG` in
`config/settings.py`. -/
def default_weights : List (String × ℚ) :=
  [( "learning_style", 15/100), ( "difficulty", 25/100), ( "cognitive_load", 20/100),
   ( "knowledge_gap", 25/100), ( "engagement", 15/100)]

/-- Engine state of `AdaptiveLearningAlgorithm` (`core/algorithm.py`):
weights, pedagogical parameters, the BKT estimator and the mutable
`time_step` counter. -/
structure AdaptiveLearningAlgorithm where
  weights : List (String × ℚ)
  zpd_delta : ℚ
  zpd_sigma : ℚ
  cl_optimal : ℚ
  cl_max : ℚ
  beta_0 : ℚ
  mastery_threshold : ℚ
  bkt : BayesianKnowledgeTracing
  time_step : ℕ
deriving DecidableEq, Repr

/-- The engine produced by `AdaptiveLearningAlgorithm()` with every
constructor argument left at its config default. -/
def default_algo : AdaptiveLearningAlgorithm :=
  { weights := default_weights, zpd_delta := 2/10, zpd_sigma := 15/100,
    cl_optimal := 7/10, cl_max := 9/10, beta_0 := 1, mastery_threshold := 7/10,
    bkt := default_bkt, time_step := 0 }

/-- The weight mapping chosen by `__init__`: `weights or
ALGORITHM_CONFIG['weights']` — a missing argument *or a falsy (empty)
dict* falls back to the config defaults. -/
def init_weights (weights : Option (List (String × ℚ))) : List (String × ℚ) :=
  match weights with
  | none => default_weights
  | some ws => if ws.isEmpty then default_weights else ws

/-- `AdaptiveLearningAlgorithm.__init__` restricted to the weight
handling (the non-weight parameters take their config defaults through
the same `or`-default mechanism and are not varied here): choose the
weight mapping, reject (`ValueError`, embedded as `none`) unless its sum
is within 0.01 of 1. -/
def init_algorithm (weights : Option (List (String × ℚ))) :
    Option AdaptiveLearningAlgorithm :=
  let w := init_weights weights
  if |sum_values w - 1| > 1/100 then none
  else some { default_algo with weights := w }

/-- `AdaptiveLearningAlgorithm.set_weights`: validate the sum before any
assignment; on failure raise (embedded as `none`) leaving the engine
untouched, on success replace the weight mapping wholesale. -/
def set_weights (algo : AdaptiveLearningAlgorithm) (weights : List (String × ℚ)) :
    Option AdaptiveLearningAlgorithm :=
  if |sum_values weights - 1| > 1/100 then none
  else some { algo with weights := weights }

/-- `AdaptiveLearningAlgorithm._prerequisites_met`: every prerequisite
topic is at mastery ≥ `mastery_threshold` (missing entries count as 0). -/
def prerequisites_met (algo : AdaptiveLearningAlgorithm) (topic : Topic)
    (student : StudentState) : Bool :=
  topic.prerequisites.all
    (fun prereq_id =>
      decide (algo.mastery_threshold ≤ (lookup? prereq_id student.knowledge_state).getD 0))

/-- `AdaptiveLearningAlgorithm._in_zpd`: difficulty within
`[knowledge_level - 0.1, knowledge_level + zpd_delta + 0.1]`. -/
def in_zpd (algo : AdaptiveLearningAlgorithm) (difficulty knowledge_level : ℚ) : Bool :=
  decide (knowledge_level - 1/10 ≤ difficulty
    ∧ difficulty ≤ knowledge_level + algo.zpd_delta + 1/10)

/-- The per-candidate eligibility test of
`AdaptiveLearningAlgorithm._filter_eligible_content`: prerequisites (only
checked when the topic is known), ZPD band against the student's
per-topic mastery, and projected cognitive load within `cl_max`. -/
def content_eligible (algo : AdaptiveLearningAlgorithm) (student : StudentState)
    (topics : List (String × Topic)) (content : Content) : Bool :=
  (match lookup? content.topic_id topics with
   | some topic => prerequisites_met algo topic student
   | none => true)
  && in_zpd algo content.difficulty
      ((lookup? content.topic_id student.knowledge_state).getD 0)
  && decide (estimate_projected_load content student ≤ algo.cl_max)

/-- `AdaptiveLearningAlgorithm._filter_eligible_content`. -/
def filter_eligible_content (algo : AdaptiveLearningAlgorithm)
    (content_list : List Content) (student : StudentState)
    (topics : List (String × Topic)) : List Content :=
  content_list.filter (content_eligible algo student topics)

/-- `min(available_content, key=lambda c: c.difficulty)` on a non-empty
list: the first element of minimum difficulty. -/
def min_by_difficulty (c : Content) (rest : List Content) : Content :=
  rest.foldl (fun best x => if x.difficulty < best.difficulty then x else best) c

/-- Whether the weight mapping binds all five component names used by
`_calculate_score` (a missing name is a `KeyError` there). -/
def weights_complete (algo : AdaptiveLearningAlgorithm) : Bool :=
  (lookup? "learning_style" algo.weights).isSome
  && (lookup? "difficulty" algo.weights).isSome
  && (lookup? "cognitive_load" algo.weights).isSome
  && (lookup? "knowledge_gap" algo.weights).isSome
  && (lookup? "engagement" algo.weights).isSome

/-- `AdaptiveLearningAlgorithm._calculate_score`: the five weighted
component scores plus the unweighted exploration bonus, with the component
breakdown; `none` embeds the `KeyError` on a weight name missing from the
mapping. -/
noncomputable def calculate_score (algo : AdaptiveLearningAlgorithm) (content : Content)
    (student : StudentState) (knowledge_level : ℚ) :
    Option (ℝ × List (String × ℝ)) :=
  match lookup? "learning_style" algo.weights, lookup? "difficulty" algo.weights,
      lookup? "cognitive_load" algo.weights, lookup? "knowledge_gap" algo.weights,
      lookup? "engagement" algo.weights with
  | some w_ls, some w_d, some w_cl, some w_kg, some w_e =>
    let ls_score : ℚ := learning_style_match content student
    let d_score : ℝ := difficulty_appropriateness content student knowledge_level
      algo.zpd_delta algo.zpd_sigma
    let cl_score : ℚ := cognitive_load_optimization content student algo.cl_optimal
    let kg_score : ℚ := knowledge_gap_targeting content student false
    let eng_score : ℝ := engagement_prediction content student
    let e_bonus : ℝ := exploration_bonus content student.total_interactions
      (algo.beta_0 : ℝ) algo.time_step
    let total_score : ℝ := (w_ls : ℝ) * (ls_score : ℝ) + (w_d : ℝ) * d_score
      + (w_cl : ℝ) * (cl_score : ℝ) + (w_kg : ℝ) * (kg_score : ℝ)
      + (w_e : ℝ) * eng_score + e_bonus
    some (total_score,
      [( "learning_style", (ls_score : ℝ)), ( "difficulty", d_score),
       ( "cognitive_load", (cl_score : ℝ)), ( "knowledge_gap", (kg_score : ℝ)),
       ( "engagement", eng_score), ( "exploration", e_bonus),
       ( "total", total_score)])
  | _, _, _, _, _ => none

/-- The scoring loop over the eligible candidates; `none` embeds the
exception raised at the first candidate whose score cannot be computed. -/
noncomputable def score_all (algo : AdaptiveLearningAlgorithm) (student : StudentState)
    (knowledge_level : ℚ) :
    List Content → Option (List (Content × ℝ × List (String × ℝ)))
  | [] => some []
  | c :: cs =>
    match calculate_score algo c student knowledge_level,
        score_all algo student knowledge_level cs with
    | some sc, some rest => some ((c, sc) :: rest)
    | _, _ => none

/-- The running-best accumulator of the selection loop: starting from
`-inf`, replace the tracked best only on a strictly greater score (ties
keep the first-encountered candidate). -/
noncomputable def better_candidate
    (acc : Option (Content × ℝ × List (String × ℝ)))
    (csc : Content × ℝ × List (String × ℝ)) :
    Option (Content × ℝ × List (String × ℝ)) :=
  match acc with
  | none => some csc
  | some b => if b.2.1 < csc.2.1 then some csc else acc

/-- `AdaptiveLearningAlgorithm.select_optimal_content` (`core/algorithm.py`
lines 63-123).  Returns the Python return value (or `none` for a raised
exception) together with the engine's `time_step` after the call; the
fallback `return` at line 88 happens before the `time_step += 1` at line
115, so those paths leave the counter unchanged. -/
noncomputable def select_optimal_content (algo : AdaptiveLearningAlgorithm)
    (student : StudentState) (available_content : List Content)
    (topics : List (String × Topic)) :
    Option (Content × List (String × ℝ)) × ℕ :=
  let eligible_content := filter_eligible_content algo available_content student topics
  if eligible_content.isEmpty then
    match available_content with
    | [] => (none, algo.time_step)
    | c :: rest => (some (min_by_difficulty c rest, []), algo.time_step)
  else
    let topic_weights := student.knowledge_state.filterMap
      (fun kv => (lookup? kv.1 topics).map (fun t => (kv.1, t.importance_weight)))
    let knowledge_level := estimate_knowledge_level student.knowledge_state topic_weights
    match score_all algo student knowledge_level eligible_content with
    | none => (none, algo.time_step)
    | some scored =>
      match scored.foldl better_candidate none with
      | some b => (some (b.1, b.2.2), algo.time_step + 1)
      | none => (none, algo.time_step + 1)

/-- Python's `l.append(x)` followed by `if len(l) > 20: l = l[-20:]`
(bounded history update in `update_student_state`). -/
def truncate_history (l : List ℚ) : List ℚ :=
  if 20 < l.length then l.drop (l.length - 20) else l

/-- Python dict assignment `d[k] = v` on an association list: replace the
first binding of `k`, or append a new binding. -/
def set_key (l : List (String × ℚ)) (k : String) (v : ℚ) : List (String × ℚ) :=
  match l with
  | [] => [(k, v)]
  | p :: rest => if p.1 = k then (k, v) :: rest else p :: set_key rest k v

/-- `AdaptiveLearningAlgorithm.update_student_state` (`core/algorithm.py`
lines 234-285): BKT mastery update, mastered-topic append at threshold
0.8, bounded performance history, decayed-and-clipped cognitive load,
bounded engagement history, interaction counter increment. -/
def update_student_state (algo : AdaptiveLearningAlgorithm) (student : StudentState)
    (observation : Observation) (content : Content) : StudentState :=
  let current_mastery := (lookup? observation.topic_id student.knowledge_state).getD 0
  let new_mastery := update_mastery algo.bkt current_mastery observation.correct
  let knowledge_state := set_key student.knowledge_state observation.topic_id new_mastery
  let mastered_topics :=
    if 8/10 ≤ new_mastery ∧ observation.topic_id ∉ student.mastered_topics then
      student.mastered_topics ++ [observation.topic_id]
    else student.mastered_topics
  let performance_score : ℚ := if observation.correct then 1 else 0
  let recent_performance :=
    truncate_history (student.recent_performance ++ [performance_score])
  let current_cognitive_load :=
    clip (student.current_cognitive_load * (8/10) + content.intrinsic_load * (2/10)) 0 1
  let engagement_history :=
    truncate_history (student.engagement_history ++ [observation.engagement_score])
  { student with
    knowledge_state := knowledge_state,
    mastered_topics := mastered_topics,
    recent_performance := recent_performance,
    current_cognitive_load := current_cognitive_load,
    engagement_history := engagement_history,
    total_interactions := student.total_interactions + 1 }

/-- The state invariant of claim C4: both histories bounded by 20 entries,
cognitive load in `[0, 1]`, every stored mastery in `[0, 1]`. -/
def student_invariant (s : StudentState) : Prop :=
  s.recent_performance.length ≤ 20
  ∧ s.engagement_history.length ≤ 20
  ∧ 0 ≤ s.current_cognitive_load ∧ s.current_cognitive_load ≤ 1
  ∧ ∀ p ∈ s.knowledge_state, 0 ≤ p.2 ∧ p.2 ≤ 1

/-- A small neutral student record used by concrete witnesses. -/
def sample_student : StudentState :=
  { student_id := "s1", knowledge_state := [], learning_style_preferences := [],
    current_cognitive_load := 0, recent_performance := [], mastered_topics := [],
    total_interactions := 0, engagement_history := [] }

/-- A content item sitting exactly at the ZPD target difficulty 1/5, used
by concrete witnesses. -/
def sample_content : Content :=
  { id := "c1", topic_id := "t1", content_type := ContentType.video,
    difficulty := 1/5, intrinsic_load := 1/2, interaction_count := 0 }

/-- A never-served content item (interaction count 0), for claim C5. -/
def c5_zero : Content :=
  { id := "c5a", topic_id := "t1", content_type := ContentType.video,
    difficulty := 1/2, intrinsic_load := 1/2, interaction_count := 0 }

/-- A once-served content item (interaction count 1), for claim C5. -/
def c5_more : Content :=
  { id := "c5b", topic_id := "t1", content_type := ContentType.video,
    difficulty := 1/2, intrinsic_load := 1/2, interaction_count := 1 }

/-- A content item of difficulty 1: far above the fresh student's ZPD
band, hence ineligible; used by the fallback-path claims. -/
def c1_hard : Content :=
  { id := "c1h", topic_id := "t1", content_type := ContentType.video,
    difficulty := 1, intrinsic_load := 1/2, interaction_count := 0 }

/-- An easy, low-load content item eligible for a fresh student; used by
the scoring-path claims. -/
def c2_easy : Content :=
  { id := "c2e", topic_id := "t1", content_type := ContentType.video,
    difficulty := 1/10, intrinsic_load := 1/10, interaction_count := 0 }

/-- A concrete observation for the state-update claims. -/
def c4_observation : Observation :=
  { content_id := "c1", topic_id := "t1", correct := true, time_spent := 30,
    engagement_score := 8/10 }

/-! ## Helper lemmas -/

/-- Clamping into `[0, 1]` is monotone. -/
lemma clip01_mono {x y : ℚ} (h : x ≤ y) : clip x 0 1 ≤ clip y 0 1 :=
  min_le_min (max_le_max h (le_refl 0)) (le_refl 1)

/-- Clamping into `[0, 1]` lands in `[0, 1]`. -/
lemma clip01_mem (x : ℚ) : 0 ≤ clip x 0 1 ∧ clip x 0 1 ≤ 1 :=
  ⟨le_min (le_max_right x 0) zero_le_one, min_le_right _ 1⟩

/-- `update_mastery` always lands in `[0, 1]` (its last step clips). -/
lemma update_mastery_mem (bkt : BayesianKnowledgeTracing) (m : ℚ) (correct : Bool) :
    0 ≤ update_mastery bkt m correct ∧ update_mastery bkt m correct ≤ 1 := by
  simp only [update_mastery]
  exact clip01_mem _

/-- The two branches of `exploration_bonus` compute one single function:
the omitted divisor at interaction count 0 equals 1. -/
lemma exploration_bonus_eq_general (content : Content) (total_interactions : ℕ)
    (beta_0 : ℝ) (time_step : ℕ) :
    exploration_bonus content total_interactions beta_0 time_step
      = exploration_bonus_general content total_interactions beta_0 time_step := by
  simp only [exploration_bonus, exploration_bonus_general]
  by_cases h : content.interaction_count = 0
  · rw [if_pos h, h]
    norm_num
  · rw [if_neg h]

/-! ## Claims C3 and C8: the mastery estimator -/

/-- Claim C3: for every mastery value and every probability-valued
parameter setting, `update_mastery` returns exactly the clamped
learning-transition applied to the spec's posterior, where the posterior
is the Bayes formula with pass-through at a zero denominator. -/
theorem claim_C3 (bkt : BayesianKnowledgeTracing) (m : ℚ) (correct : Bool)
    (hs0 : 0 ≤ bkt.p_slip) (hs1 : bkt.p_slip ≤ 1)
    (hg0 : 0 ≤ bkt.p_guess) (hg1 : bkt.p_guess ≤ 1)
    (hm0 : 0 ≤ m) (hm1 : m ≤ 1) :
    update_mastery bkt m correct
      = clip (spec_posterior bkt m correct
          + (1 - spec_posterior bkt m correct) * bkt.p_learn) 0 1 := by
  cases correct with
  | true =>
    have hden : 0 ≤ (1 - bkt.p_slip) * m + bkt.p_guess * (1 - m) := by nlinarith
    by_cases h : (1 - bkt.p_slip) * m + bkt.p_guess * (1 - m) = 0
    · simp [update_mastery, spec_posterior, h]
    · have hpos : 0 < (1 - bkt.p_slip) * m + bkt.p_guess * (1 - m) :=
        lt_of_le_of_ne hden (Ne.symm h)
      simp [update_mastery, spec_posterior, h, hpos]
  | false =>
    have hden : 0 ≤ bkt.p_slip * m + (1 - bkt.p_guess) * (1 - m) := by nlinarith
    by_cases h : bkt.p_slip * m + (1 - bkt.p_guess) * (1 - m) = 0
    · simp [update_mastery, spec_posterior, h]
    · have hpos : 0 < bkt.p_slip * m + (1 - bkt.p_guess) * (1 - m) :=
        lt_of_le_of_ne hden (Ne.symm h)
      simp [update_mastery, spec_posterior, h, hpos]

/-- Witness for claim C3 at the default parameters and mastery 1/2. -/
theorem claim_C3_witness :
    update_mastery default_bkt (1/2) true
      = clip (spec_posterior default_bkt (1/2) true
          + (1 - spec_posterior default_bkt (1/2) true) * default_bkt.p_learn) 0 1 :=
  claim_C3 default_bkt (1/2) true (by norm_num [default_bkt])
    (by norm_num [default_bkt]) (by norm_num [default_bkt])
    (by norm_num [default_bkt]) (by norm_num) (by norm_num)

/-- Claim C8: with the default BKT parameters, `update_mastery (1/2) true`
is approximately 0.8727 (exactly 48/55), `update_mastery (1/2) false` is
approximately 0.3778 (exactly 17/45), and for every prior mastery in
`[0, 1]` a correct answer never yields a lower updated mastery than an
incorrect one. -/
theorem claim_C8 :
    |update_mastery default_bkt (1/2) true - 8727/10000| < 1/10000
    ∧ |update_mastery default_bkt (1/2) false - 3778/10000| < 1/10000
    ∧ ∀ m : ℚ, 0 ≤ m → m ≤ 1 →
        update_mastery default_bkt m false ≤ update_mastery default_bkt m true := by
  refine ⟨?_, ?_, ?_⟩
  · have h : update_mastery default_bkt (1/2) true = 48/55 := by
      norm_num [update_mastery, default_bkt, clip]
    rw [h, abs_sub_lt_iff]
    norm_num
  · have h : update_mastery default_bkt (1/2) false = 17/45 := by
      norm_num [update_mastery, default_bkt, clip]
    rw [h, abs_sub_lt_iff]
    norm_num
  · intro m hm0 hm1
    have hdt : (0:ℚ) < (1 - 1/10) * m + 2/10 * (1 - m) := by nlinarith
    have hdf : (0:ℚ) < 1/10 * m + (1 - 2/10) * (1 - m) := by nlinarith
    have et : update_mastery default_bkt m true
        = clip ((1 - 1/10) * m / ((1 - 1/10) * m + 2/10 * (1 - m))
            + (1 - (1 - 1/10) * m / ((1 - 1/10) * m + 2/10 * (1 - m))) * (3/10)) 0 1 := by
      simp only [update_mastery, default_bkt]
      rw [if_pos trivial, if_pos hdt]
    have ef : update_mastery default_bkt m false
        = clip (1/10 * m / (1/10 * m + (1 - 2/10) * (1 - m))
            + (1 - 1/10 * m / (1/10 * m + (1 - 2/10) * (1 - m))) * (3/10)) 0 1 := by
      simp only [update_mastery, default_bkt]
      rw [if_neg Bool.false_ne_true, if_pos hdf]
    rw [et, ef]
    apply clip01_mono
    have hp : 1/10 * m / (1/10 * m + (1 - 2/10) * (1 - m))
        ≤ (1 - 1/10) * m / ((1 - 1/10) * m + 2/10 * (1 - m)) := by
      rw [div_le_div_iff₀ hdf hdt]
      nlinarith [mul_nonneg hm0 (sub_nonneg.mpr hm1)]
    nlinarith [hp]

/-- Witness for the bounded-hypothesis part of claim C8, at prior 1/2. -/
theorem claim_C8_witness :
    update_mastery default_bkt (1/2) false ≤ update_mastery default_bkt (1/2) true :=
  claim_C8.2.2 (1/2) (by norm_num) (by norm_num)

/-! ## Claims C9, C10 and C5: the scoring components -/

/-- Claim C9: `difficulty_appropriateness` equals exactly 1 if and only if
the content difficulty equals `knowledge_level + delta`, and is symmetric
around that point. -/
theorem claim_C9 (content : Content) (student : StudentState)
    (knowledge_level delta sigma_zpd : ℚ) (hσ : sigma_zpd ≠ 0) :
    (difficulty_appropriateness content student knowledge_level delta sigma_zpd = 1
      ↔ content.difficulty = knowledge_level + delta)
    ∧ ∀ c1 c2 : Content,
        c1.difficulty - (knowledge_level + delta)
          = (knowledge_level + delta) - c2.difficulty →
        difficulty_appropriateness c1 student knowledge_level delta sigma_zpd
          = difficulty_appropriateness c2 student knowledge_level delta sigma_zpd := by
  have h2 : (2 : ℚ) * sigma_zpd ^ 2 ≠ 0 := mul_ne_zero two_ne_zero (pow_ne_zero 2 hσ)
  constructor
  · simp only [difficulty_appropriateness]
    rw [Real.exp_eq_one_iff, Rat.cast_eq_zero, div_eq_zero_iff]
    simp only [h2, or_false, neg_eq_zero, pow_eq_zero_iff two_ne_zero, sub_eq_zero]
  · intro c1 c2 h
    have hsq : (c1.difficulty - (knowledge_level + delta)) ^ 2
        = (c2.difficulty - (knowledge_level + delta)) ^ 2 := by
      rw [h]
      ring
    simp only [difficulty_appropriateness]
    rw [hsq]

/-- Witness for claim C9: with `sigma = 3/20 ≠ 0`, the score is exactly 1
at difficulty `0 + 1/5`. -/
theorem claim_C9_witness :
    difficulty_appropriateness sample_content sample_student 0 (1/5) (3/20) = 1 :=
  (claim_C9 sample_content sample_student 0 (1/5) (3/20) (by norm_num)).1.mpr
    (by norm_num [sample_content])

/-- Claim C10: the dedicated zero-interaction branch of
`exploration_bonus` returns exactly the general UCB formula's value, so
the branch asymmetry never changes any output. -/
theorem claim_C10 (content : Content) (total_interactions : ℕ)
    (beta_0 : ℝ) (time_step : ℕ) :
    exploration_bonus content total_interactions beta_0 time_step
      = exploration_bonus_general content total_interactions beta_0 time_step :=
  exploration_bonus_eq_general content total_interactions beta_0 time_step

/-- Claim C5 (amended): for `beta_0 > 0` and `total_interactions ≥ 1`, the
exploration bonus is strictly decreasing in the content's interaction
count for a fixed time step, and strictly decreasing in the time step for
a fixed content.  (At `total_interactions = 0` the bonus is identically 0,
see the counterexample.) -/
theorem claim_C5 (beta_0 : ℝ) (total_interactions : ℕ)
    (hb : 0 < beta_0) (hN : 1 ≤ total_interactions) :
    (∀ (time_step : ℕ) (c1 c2 : Content),
        c1.interaction_count < c2.interaction_count →
        exploration_bonus c2 total_interactions beta_0 time_step
          < exploration_bonus c1 total_interactions beta_0 time_step)
    ∧ (∀ (content : Content) (t1 t2 : ℕ), t1 < t2 →
        exploration_bonus content total_interactions beta_0 t2
          < exploration_bonus content total_interactions beta_0 t1) := by
  have hN1 : (1 : ℝ) ≤ (total_interactions : ℝ) := by exact_mod_cast hN
  have hL : 0 < Real.log ((total_interactions : ℝ) + 1) := Real.log_pos (by linarith)
  have hbt : ∀ t : ℕ, 0 < beta_0 / (1 + Real.log ((t : ℝ) + 1)) := by
    intro t
    have ht0 : (0 : ℝ) ≤ (t : ℝ) := Nat.cast_nonneg t
    have hlog : 0 ≤ Real.log ((t : ℝ) + 1) := Real.log_nonneg (by linarith)
    exact div_pos hb (by linarith)
  constructor
  · intro t c1 c2 hlt
    rw [exploration_bonus_eq_general, exploration_bonus_eq_general]
    simp only [exploration_bonus_general]
    apply mul_lt_mul_of_pos_left _ (hbt t)
    apply Real.sqrt_lt_sqrt
    · apply div_nonneg hL.le
      positivity
    · apply div_lt_div_of_pos_left hL
      · positivity
      · have : ((c1.interaction_count : ℝ)) < ((c2.interaction_count : ℝ)) := by
          exact_mod_cast hlt
        linarith
  · intro content t1 t2 hlt
    rw [exploration_bonus_eq_general, exploration_bonus_eq_general]
    simp only [exploration_bonus_general]
    have hS : 0 < Real.sqrt (Real.log ((total_interactions : ℝ) + 1)
        / ((content.interaction_count : ℝ) + 1)) :=
      Real.sqrt_pos.mpr (div_pos hL (by positivity))
    apply mul_lt_mul_of_pos_right _ hS
    apply div_lt_div_of_pos_left hb
    · have ht0 : (0 : ℝ) ≤ (t1 : ℝ) := Nat.cast_nonneg t1
      have hlog : 0 ≤ Real.log ((t1 : ℝ) + 1) := Real.log_nonneg (by linarith)
      linarith
    · have hcast : ((t1 : ℝ)) < ((t2 : ℝ)) := by exact_mod_cast hlt
      have hlog2 : Real.log ((t1 : ℝ) + 1) < Real.log ((t2 : ℝ) + 1) :=
        Real.log_lt_log (by positivity) (by linarith)
      linarith

/-- Witness for claim C5 at `beta_0 = 1`, `total_interactions = 1`:
both strict decreases hold at concrete arguments. -/
theorem claim_C5_witness :
    exploration_bonus c5_more 1 1 0 < exploration_bonus c5_zero 1 1 0
    ∧ exploration_bonus c5_zero 1 1 1 < exploration_bonus c5_zero 1 1 0 :=
  ⟨(claim_C5 1 1 one_pos (le_refl 1)).1 0 c5_zero c5_more (by decide),
   (claim_C5 1 1 one_pos (le_refl 1)).2 c5_zero 0 1 (by decide)⟩

/-- Counterexample to claim C5 as stated: at `total_interactions = 0`
(with `beta_0 = 1 > 0` and `time_step = 0` fixed) the bonus does not
strictly decrease when the interaction count increases from 0 to 1 — it is
0 for both. -/
theorem claim_C5_counterexample :
    c5_zero.interaction_count < c5_more.interaction_count
    ∧ (0 : ℝ) < 1
    ∧ ¬ (exploration_bonus c5_more 0 1 0 < exploration_bonus c5_zero 0 1 0) := by
  refine ⟨by decide, zero_lt_one, ?_⟩
  have h0 : exploration_bonus c5_zero 0 1 0 = 0 := by
    simp [exploration_bonus, c5_zero]
  have h1 : exploration_bonus c5_more 0 1 0 = 0 := by
    simp [exploration_bonus, c5_more]
  rw [h0, h1]
  exact lt_irrefl 0

/-! ## Claim C4: state-update invariants -/

/-- The bounded-history update never leaves more than `min length 20`
entries. -/
lemma truncate_history_length (l : List ℚ) :
    (truncate_history l).length = min l.length 20 := by
  unfold truncate_history
  by_cases h : 20 < l.length
  · rw [if_pos h, List.length_drop]
    omega
  · rw [if_neg h]
    omega

/-- Dict assignment preserves the all-values-in-`[0, 1]` bound when the
assigned value is in `[0, 1]`. -/
lemma set_key_bounds {l : List (String × ℚ)} {k : String} {v : ℚ}
    (hl : ∀ p ∈ l, 0 ≤ p.2 ∧ p.2 ≤ 1) (hv : 0 ≤ v ∧ v ≤ 1) :
    ∀ p ∈ set_key l k v, 0 ≤ p.2 ∧ p.2 ≤ 1 := by
  induction l with
  | nil =>
    intro p hp
    simp only [set_key, List.mem_singleton] at hp
    rw [hp]
    exact hv
  | cons q rest ih =>
    intro p hp
    simp only [set_key] at hp
    by_cases hq : q.1 = k
    · rw [if_pos hq] at hp
      rcases List.mem_cons.mp hp with h1 | h1
      · rw [h1]
        exact hv
      · exact hl p (List.mem_cons_of_mem q h1)
    · rw [if_neg hq] at hp
      rcases List.mem_cons.mp hp with h1 | h1
      · rw [h1]
        exact hl q (List.mem_cons_self q rest)
      · exact ih (fun p hp => hl p (List.mem_cons_of_mem q hp)) p h1

/-- One `update_student_state` call preserves the state invariant. -/
lemma update_student_state_invariant (algo : AdaptiveLearningAlgorithm)
    (student : StudentState) (observation : Observation) (content : Content)
    (h : student_invariant student) :
    student_invariant (update_student_state algo student observation content) := by
  obtain ⟨h1, h2, h3, h4, h5⟩ := h
  simp only [student_invariant, update_student_state]
  refine ⟨?_, ?_, (clip01_mem _).1, (clip01_mem _).2, ?_⟩
  · rw [truncate_history_length]
    exact min_le_right _ _
  · rw [truncate_history_length]
    exact min_le_right _ _
  · exact set_key_bounds h5 (update_mastery_mem algo.bkt _ observation.correct)

/-- Claim C4: starting from any state satisfying the invariant (histories
at most 20 entries, cognitive load in `[0, 1]`, stored masteries in
`[0, 1]`), any finite sequence of `update_student_state` calls preserves
it. -/
theorem claim_C4 (algo : AdaptiveLearningAlgorithm)
    (steps : List (Observation × Content)) (s : StudentState)
    (h : student_invariant s) :
    student_invariant (steps.foldl
      (fun st oc => update_student_state algo st oc.1 oc.2) s) := by
  induction steps generalizing s with
  | nil => exact h
  | cons oc rest ih =>
    rw [List.foldl_cons]
    exact ih _ (update_student_state_invariant algo s oc.1 oc.2 h)

/-- Witness for claim C4: one concrete update step from the fresh sample
student. -/
theorem claim_C4_witness :
    student_invariant ([(c4_observation, sample_content)].foldl
      (fun st oc => update_student_state default_algo st oc.1 oc.2) sample_student) :=
  claim_C4 default_algo [(c4_observation, sample_content)] sample_student
    (by norm_num [student_invariant, sample_student])

/-! ## Claims C1, C2, C6: the selection orchestrator -/

/-- Unfolding `min_by_difficulty` one step. -/
lemma min_by_difficulty_cons (c x : Content) (xs : List Content) :
    min_by_difficulty c (x :: xs)
      = min_by_difficulty (if x.difficulty < c.difficulty then x else c) xs := rfl

/-- The Python `min` result is one of the candidates. -/
lemma min_by_difficulty_mem (c : Content) (rest : List Content) :
    min_by_difficulty c rest ∈ c :: rest := by
  induction rest generalizing c with
  | nil => simp [min_by_difficulty]
  | cons x xs ih =>
    rw [min_by_difficulty_cons]
    rcases List.mem_cons.mp (ih (if x.difficulty < c.difficulty then x else c)) with h1 | h1
    · rw [h1]
      by_cases hx : x.difficulty < c.difficulty
      · simp [hx]
      · simp [hx]
    · exact List.mem_cons_of_mem _ (List.mem_cons_of_mem _ h1)

/-- The Python `min` result has minimum difficulty among the candidates. -/
lemma min_by_difficulty_le (c : Content) (rest : List Content) :
    ∀ y ∈ c :: rest, (min_by_difficulty c rest).difficulty ≤ y.difficulty := by
  induction rest generalizing c with
  | nil =>
    intro y hy
    rw [List.mem_singleton] at hy
    rw [hy]
    exact le_refl _
  | cons x xs ih =>
    intro y hy
    have hstep_c : (if x.difficulty < c.difficulty then x else c).difficulty
        ≤ c.difficulty := by
      by_cases hx : x.difficulty < c.difficulty
      · rw [if_pos hx]
        exact le_of_lt hx
      · rw [if_neg hx]
    have hstep_x : (if x.difficulty < c.difficulty then x else c).difficulty
        ≤ x.difficulty := by
      by_cases hx : x.difficulty < c.difficulty
      · rw [if_pos hx]
      · rw [if_neg hx]
        exact le_of_not_lt hx
    rw [min_by_difficulty_cons]
    rcases List.mem_cons.mp hy with h1 | h1
    · rw [h1]
      exact le_trans (ih _ _ (List.mem_cons_self _ _)) hstep_c
    · rcases List.mem_cons.mp h1 with h2 | h2
      · rw [h2]
        exact le_trans (ih _ _ (List.mem_cons_self _ _)) hstep_x
      · exact ih _ y (List.mem_cons_of_mem _ h2)

/-- Claim C1: on a non-empty candidate list in which every candidate fails
the eligibility test, `select_optimal_content` returns (without raising)
the first candidate of minimum difficulty from the full original list,
paired with an empty component-score mapping. -/
theorem claim_C1 (algo : AdaptiveLearningAlgorithm) (student : StudentState)
    (topics : List (String × Topic)) (c : Content) (rest : List Content)
    (h : ∀ x ∈ c :: rest, content_eligible algo student topics x = false) :
    (select_optimal_content algo student (c :: rest) topics).1
        = some (min_by_difficulty c rest, [])
    ∧ min_by_difficulty c rest ∈ c :: rest
    ∧ ∀ x ∈ c :: rest, (min_by_difficulty c rest).difficulty ≤ x.difficulty := by
  have hfilter : filter_eligible_content algo (c :: rest) student topics = [] := by
    simp only [filter_eligible_content]
    rw [List.filter_eq_nil_iff]
    intro a ha
    simp [h a ha]
  refine ⟨?_, min_by_difficulty_mem c rest, min_by_difficulty_le c rest⟩
  simp [select_optimal_content, hfilter]

/-- The hard sample content fails eligibility for the fresh student under
the default engine (difficulty 1 is outside the ZPD band `[-0.1, 0.3]`). -/
lemma c1_hard_ineligible :
    content_eligible default_algo sample_student [] c1_hard = false := by
  norm_num [content_eligible, in_zpd, lookup?, c1_hard, sample_student, default_algo]

/-- The singleton hard candidate list filters to nothing. -/
lemma filter_c1_hard :
    filter_eligible_content default_algo [c1_hard] sample_student [] = [] := by
  simp [filter_eligible_content, List.filter_cons, c1_hard_ineligible]

/-- Witness for claim C1: the concrete fallback on the singleton
ineligible candidate list. -/
theorem claim_C1_witness :
    (select_optimal_content default_algo sample_student [c1_hard] []).1
        = some (min_by_difficulty c1_hard [], [])
    ∧ min_by_difficulty c1_hard [] ∈ [c1_hard]
    ∧ ∀ x ∈ [c1_hard], (min_by_difficulty c1_hard []).difficulty ≤ x.difficulty :=
  claim_C1 default_algo sample_student [] c1_hard []
    (by
      intro x hx
      rw [List.mem_singleton] at hx
      rw [hx]
      exact c1_hard_ineligible)

/-- With all five weight names bound, `_calculate_score` always produces a
score. -/
lemma calculate_score_isSome (algo : AdaptiveLearningAlgorithm) (content : Content)
    (student : StudentState) (kl : ℚ) (h : weights_complete algo = true) :
    (calculate_score algo content student kl).isSome = true := by
  simp only [weights_complete, Bool.and_eq_true] at h
  obtain ⟨⟨⟨⟨h1, h2⟩, h3⟩, h4⟩, h5⟩ := h
  obtain ⟨w1, hw1⟩ := Option.isSome_iff_exists.mp h1
  obtain ⟨w2, hw2⟩ := Option.isSome_iff_exists.mp h2
  obtain ⟨w3, hw3⟩ := Option.isSome_iff_exists.mp h3
  obtain ⟨w4, hw4⟩ := Option.isSome_iff_exists.mp h4
  obtain ⟨w5, hw5⟩ := Option.isSome_iff_exists.mp h5
  simp [calculate_score, hw1, hw2, hw3, hw4, hw5]

/-- With all five weight names bound, the scoring loop succeeds on every
candidate list and yields one scored entry per candidate. -/
lemma score_all_some (algo : AdaptiveLearningAlgorithm) (student : StudentState)
    (kl : ℚ) (l : List Content) (hw : weights_complete algo = true) :
    ∃ out, score_all algo student kl l = some out ∧ out.length = l.length := by
  induction l with
  | nil => exact ⟨[], rfl, rfl⟩
  | cons c cs ih =>
    obtain ⟨out, hout, hlen⟩ := ih
    obtain ⟨sc, hsc⟩ :=
      Option.isSome_iff_exists.mp (calculate_score_isSome algo c student kl hw)
    refine ⟨(c, sc) :: out, ?_, by simp [hlen]⟩
    simp [score_all, hsc, hout]

/-- The running-best fold starting from a tracked candidate always tracks
some candidate. -/
lemma foldl_better_isSome (l : List (Content × ℝ × List (String × ℝ)))
    (b : Content × ℝ × List (String × ℝ)) :
    (l.foldl better_candidate (some b)).isSome = true := by
  induction l generalizing b with
  | nil => rfl
  | cons x xs ih =>
    rw [List.foldl_cons]
    by_cases hx : b.2.1 < x.2.1
    · rw [show better_candidate (some b) x = some x from by simp [better_candidate, hx]]
      exact ih x
    · rw [show better_candidate (some b) x = some b from by simp [better_candidate, hx]]
      exact ih b

/-- Claim C6 (amended): on every non-empty candidate list — under an
engine whose weight mapping binds the five component names, as every
config-constructed engine does — `select_optimal_content` returns a
result and does not raise.  (On the empty candidate list it raises: see
the counterexample.) -/
theorem claim_C6 (algo : AdaptiveLearningAlgorithm) (student : StudentState)
    (l : List Content) (topics : List (String × Topic))
    (hw : weights_complete algo = true) (hne : l ≠ []) :
    (select_optimal_content algo student l topics).1.isSome = true := by
  simp only [select_optimal_content]
  cases he : (filter_eligible_content algo l student topics).isEmpty with
  | true =>
    rw [if_pos rfl]
    cases l with
    | nil => exact absurd rfl hne
    | cons c rest => rfl
  | false =>
    rw [if_neg Bool.false_ne_true]
    have hfne : filter_eligible_content algo l student topics ≠ [] := by
      intro h0
      rw [h0] at he
      exact absurd he (by simp)
    obtain ⟨out, hout, hlen⟩ := score_all_some algo student
      (estimate_knowledge_level student.knowledge_state
        (student.knowledge_state.filterMap
          (fun kv => (lookup? kv.1 topics).map (fun t => (kv.1, t.importance_weight)))))
      (filter_eligible_content algo l student topics) hw
    rw [hout]
    cases out with
    | nil =>
      exfalso
      apply hfne
      have : (filter_eligible_content algo l student topics).length = 0 := by
        rw [← hlen]
        rfl
      exact List.length_eq_zero.mp this
    | cons o os =>
      obtain ⟨b, hb⟩ := Option.isSome_iff_exists.mp (foldl_better_isSome os o)
      have hfold : List.foldl better_candidate none (o :: os) = some b := by
        rw [List.foldl_cons]
        exact hb
      show (match List.foldl better_candidate none (o :: os) with
        | some b => (some (b.1, b.2.2), algo.time_step + 1)
        | none => (none, algo.time_step + 1)).1.isSome = true
      rw [hfold]
      rfl

/-- Counterexample to claim C6 as stated: on the empty candidate list the
code reaches `min([])`, which raises `ValueError` — no result exists. -/
theorem claim_C6_counterexample :
    (select_optimal_content default_algo sample_student [] []).1 = none := rfl

/-- Witness for claim C6 on the singleton (ineligible, hence
fallback-served) candidate list. -/
theorem claim_C6_witness :
    (select_optimal_content default_algo sample_student [c1_hard] []).1.isSome = true :=
  claim_C6 default_algo sample_student [c1_hard] [] rfl (by simp)

/-- Claim C2 (amended): `select_optimal_content` increments the engine's
`time_step` by 1 exactly on calls that score a non-empty eligible set; on
the no-eligible-candidate fallback path the counter is left unchanged
(the fallback `return` precedes the increment). -/
theorem claim_C2 (algo : AdaptiveLearningAlgorithm) (student : StudentState)
    (candidates : List Content) (topics : List (String × Topic)) :
    ((filter_eligible_content algo candidates student topics).isEmpty = false →
      weights_complete algo = true →
      (select_optimal_content algo student candidates topics).2 = algo.time_step + 1)
    ∧ ((filter_eligible_content algo candidates student topics).isEmpty = true →
      (select_optimal_content algo student candidates topics).2 = algo.time_step) := by
  constructor
  · intro he hw
    simp only [select_optimal_content]
    rw [if_neg (by rw [he]; exact Bool.false_ne_true)]
    obtain ⟨out, hout, _⟩ := score_all_some algo student
      (estimate_knowledge_level student.knowledge_state
        (student.knowledge_state.filterMap
          (fun kv => (lookup? kv.1 topics).map (fun t => (kv.1, t.importance_weight)))))
      (filter_eligible_content algo candidates student topics) hw
    rw [hout]
    show (match List.foldl better_candidate none out with
      | some b => (some (b.1, b.2.2), algo.time_step + 1)
      | none => (none, algo.time_step + 1)).2 = algo.time_step + 1
    cases hf : List.foldl better_candidate none out with
    | none => rfl
    | some b => rfl
  · intro he
    cases candidates with
    | nil => simp [select_optimal_content, he]
    | cons c rest => simp [select_optimal_content, he]

/-- Counterexample to claim C2 as stated: on the concrete fallback call
the engine returns a result, yet `time_step` is not incremented. -/
theorem claim_C2_counterexample :
    (select_optimal_content default_algo sample_student [c1_hard] []).1.isSome = true
    ∧ (select_optimal_content default_algo sample_student [c1_hard] []).2
        ≠ default_algo.time_step + 1 := by
  constructor
  · simp [select_optimal_content, filter_c1_hard]
  · have h1 : (select_optimal_content default_algo sample_student [c1_hard] []).2
        = default_algo.time_step := by
      simp [select_optimal_content, filter_c1_hard]
    rw [h1]
    omega

/-- The easy sample content is eligible for the fresh student, so the
filter is non-empty. -/
lemma filter_c2_easy :
    (filter_eligible_content default_algo [c2_easy] sample_student []).isEmpty = false := by
  norm_num [filter_eligible_content, List.filter_cons, content_eligible, in_zpd,
    lookup?, c2_easy, sample_student, default_algo, estimate_projected_load, clip,
    prerequisites_met]

/-- Witness for claim C2: a concrete scoring-path call increments
`time_step` by 1. -/
theorem claim_C2_witness :
    (select_optimal_content default_algo sample_student [c2_easy] []).2
      = default_algo.time_step + 1 :=
  (claim_C2 default_algo sample_student [c2_easy] []).1 filter_c2_easy rfl

/-! ## Claim C7: weight validation -/

/-- Claim C7 (amended): `set_weights` succeeds exactly when the values sum
to within 0.01 of 1 and rejects otherwise without producing any modified
engine; engine construction behaves the same on a *non-empty* explicitly
supplied mapping, but an explicitly supplied *empty* mapping is falsy in
`weights or ALGORITHM_CONFIG['weights']`, is replaced by the defaults, and
construction succeeds even though the empty sum is 0. -/
theorem claim_C7 (algo : AdaptiveLearningAlgorithm) (ws : List (String × ℚ)) :
    set_weights algo ws
        = (if 1/100 < |sum_values ws - 1| then none
           else some { algo with weights := ws })
    ∧ init_algorithm (some ws)
        = (if ws = [] then some default_algo
           else if 1/100 < |sum_values ws - 1| then none
           else some { default_algo with weights := ws })
    ∧ init_algorithm none = some default_algo := by
  refine ⟨rfl, ?_, ?_⟩
  · by_cases hw : ws = []
    · subst hw
      norm_num [init_algorithm, init_weights, sum_values, default_weights, default_algo]
    · simp [init_algorithm, init_weights, hw]
  · norm_num [init_algorithm, init_weights, sum_values, default_weights, default_algo]

/-- Counterexample to claim C7 as stated: construction with an explicitly
supplied empty weight mapping succeeds although the empty sum differs from
1 by more than 0.01. -/
theorem claim_C7_counterexample :
    (init_algorithm (some [])).isSome = true
    ∧ 1/100 < |sum_values ([] : List (String × ℚ)) - 1| := by
  constructor
  · norm_num [init_algorithm, init_weights, sum_values, default_weights]
  · norm_num [sum_values]

end AdaptiveAlgorithm
